import Mathlib

/-!
Verification of the HealthSync wellness-scoring and habit-streak engine.

This file embeds, in Lean, the business-logic helpers of `src/main.py`:

* `update_energy_level` (lines 738-804): the per-day score formula
  (`steps_score`, `water_score`, `sleep_score`, `meals_score`, `mood_score`,
  `overall_balance`) and the profile-level energy recomputation
  (`AVG(overall_balance)` over rows with `date >= anchor - 7 days`, with a
  truthiness fallback to 50.0);
* `update_habit_streak` (lines 806-834): the streak walk over the 7 most
  recent completed dates and the `GREATEST(longest_streak, current)` update;
* `award_for_habit_completion` (lines 836-848): `sync_coins + 2` and
  `LEAST(energy_level + 3, 100)`.

SQL `INTEGER` columns are embedded as `Int`, `DECIMAL` columns as `Rat`,
nullable columns as `Option`.  Dates are embedded as `Int` day numbers, so
`date_str::date - INTERVAL '7 days'` becomes subtraction by 7 and
`current_date - timedelta(days=i)` becomes subtraction by `i`.
-/

namespace HealthSync

/-- One `daily_data` row as read by `update_energy_level` after the SQL
`COALESCE`s: `steps`, `water_ml`, `sleep_hours`, the three meal flags and the
mood (the `COALESCE(mood, 'neutral')` is applied inside `mood_score`). -/
structure DailyFacts where
  steps : Int
  water : Int
  sleep : Rat
  breakfast : Bool
  lunch : Bool
  dinner : Bool
  mood : Option String
deriving DecidableEq

/-- Python `steps_score = min(data['steps'] / 10000 * 25, 25) if data['steps'] > 0 else 0`. -/
def steps_score (f : DailyFacts) : Rat :=
  if 0 < f.steps then min ((f.steps : Rat) / 10000 * 25) 25 else 0

/-- Python `water_score = min(data['water'] / 2000 * 25, 25) if data['water'] > 0 else 0`. -/
def water_score (f : DailyFacts) : Rat :=
  if 0 < f.water then min ((f.water : Rat) / 2000 * 25) 25 else 0

/-- Python `sleep_score = min(data['sleep'] / 8 * 25, 25) if data['sleep'] > 0 else 0`. -/
def sleep_score (f : DailyFacts) : Rat :=
  if 0 < f.sleep then min (f.sleep / 8 * 25) 25 else 0

/-- Python `meals_count = sum([data['breakfast'], data['lunch'], data['dinner']])`. -/
def meals_count (f : DailyFacts) : Nat :=
  (if f.breakfast then 1 else 0) + (if f.lunch then 1 else 0) + (if f.dinner then 1 else 0)

/-- Python `meals_score = (meals_count / 3) * 25 if meals_count > 0 else 0`. -/
def meals_score (f : DailyFacts) : Rat :=
  if 0 < meals_count f then ((meals_count f : Rat) / 3) * 25 else 0

/-- The Python `mood_scores` dict, as an association list. -/
def mood_scores : List (String × Rat) :=
  [("excellent", 25), ("good", 20), ("neutral", 15), ("bad", 5), ("terrible", 0)]

/-- Python `mood_score = mood_scores.get(data['mood'], 15)`, where a NULL mood
was already replaced by `'neutral'` by the SQL `COALESCE(mood, 'neutral')`. -/
def mood_score (f : DailyFacts) : Rat :=
  (mood_scores.lookup (f.mood.getD "neutral")).getD 15

/-- Python `overall_balance = steps_score + water_score + sleep_score + meals_score + mood_score`
(line 775 of `src/main.py`): note that the water score IS one of the summands. -/
def overall_balance (f : DailyFacts) : Rat :=
  steps_score f + water_score f + sleep_score f + meals_score f + mood_score f

/-- The columns written back by the `UPDATE daily_data SET ...` at lines
778-788: `activity_score = steps_score`, `nutrition_score = meals_score`,
`recovery_score = sleep_score`, `mental_score = mood_score`, plus the balance. -/
structure DailyScore where
  activity_score : Rat
  nutrition_score : Rat
  recovery_score : Rat
  mental_score : Rat
  balance : Rat
deriving DecidableEq

/-- The full per-day score recomputation performed by `update_energy_level`. -/
def computeDailyScore (f : DailyFacts) : DailyScore :=
  ⟨steps_score f, meals_score f, sleep_score f, mood_score f, overall_balance f⟩

/-- The scoring path of the `POST /daily` handler (`update_daily_data`,
lines 178-268 of `src/main.py`).  The Pydantic model `DailyDataCreate`
declares `steps: Optional[int] = 0` with no range bound, and the handler has
no branch that rejects a stored value: every `DailyFacts` row, a negative
step count included, flows into `update_energy_level` and gets scored.  The
`Except` codomain records that the path offers no validation-error outcome
for the facts themselves. -/
def process_daily (f : DailyFacts) : Except String DailyScore :=
  Except.ok (computeDailyScore f)

/-- One `daily_data` row as seen by the energy recomputation: its `date`
(as a day number) and its `overall_balance`. -/
structure ScoreRecord where
  date : Int
  balance : Rat
deriving DecidableEq

/-- The rows matched by
`WHERE user_id = %s AND date >= %s::date - INTERVAL '7 days'` (line 794):
every stored row whose date is at least `anchor - 7`.  There is no upper
bound on the date. -/
def windowBalances (hist : List ScoreRecord) (anchor : Int) : List Rat :=
  (hist.filter (fun r => anchor - 7 ≤ r.date)).map (fun r => r.balance)

/-- SQL `AVG(overall_balance)` over the matched rows: `NULL` (here `none`)
when no row matches, otherwise the arithmetic mean. -/
def avg_energy (hist : List ScoreRecord) (anchor : Int) : Option Rat :=
  if windowBalances hist anchor = [] then none
  else some ((windowBalances hist anchor).sum / ((windowBalances hist anchor).length : Rat))

/-- Python `new_energy = result['avg_energy'] if result and result['avg_energy'] else 50.0`
(line 798): the row always exists, a NULL average is falsy, and so is a zero
average, both yielding the 50.0 fallback. -/
def new_energy (hist : List ScoreRecord) (anchor : Int) : Rat :=
  match avg_energy hist anchor with
  | none => 50
  | some a => if a = 0 then 50 else a

/-- The Python loop of `update_habit_streak` (lines 819-826): walk the dates
with index `i`, expect `current_date - timedelta(days=i)`, count consecutive
matches, break at the first mismatch. -/
def streakGo (anchor : Int) : List Int → Nat → Nat
  | [], _ => 0
  | d :: rest, i => if d = anchor - (i : Int) then streakGo anchor rest (i + 1) + 1 else 0

/-- The `current_streak` computed by `update_habit_streak`: the SQL fetch is
`ORDER BY date DESC LIMIT 7`, so the loop sees only the 7 most recent
completed dates of the habit. -/
def current_streak (completions : List Int) (anchor : Int) : Nat :=
  streakGo anchor (completions.take 7) 0

/-- The `user_habits` streak columns. -/
structure StreakState where
  current_streak : Nat
  longest_streak : Nat
deriving DecidableEq

/-- The `UPDATE user_habits SET current_streak = %s, longest_streak =
GREATEST(longest_streak, %s)` at lines 828-834, with the current streak
computed from the habit's completed dates (newest first). -/
def update_habit_streak (completions : List Int) (anchor : Int) (s : StreakState) : StreakState :=
  ⟨current_streak completions anchor,
   max s.longest_streak (current_streak completions anchor)⟩

/-- The `users` gamification columns touched by `award_for_habit_completion`. -/
structure UserAccount where
  sync_coins : Int
  energy_level : Rat
deriving DecidableEq

/-- `award_for_habit_completion` (lines 836-848): `sync_coins = sync_coins + 2`
then `energy_level = LEAST(energy_level + 3, 100)`. -/
def award_for_habit_completion (a : UserAccount) : UserAccount :=
  ⟨a.sync_coins + 2, min (a.energy_level + 3) 100⟩

/-- Rounding to three decimal places, the convention the spec's example
values (`16.667`, `67.917`) use: the integer nearest to `1000 * q`. -/
def round3 (q : Rat) : Int :=
  round (q * 1000)

/-- A day with every metric at its ceiling: 10000 steps, 2000 ml of water,
8 hours of sleep, all meals, excellent mood. -/
def factsMax : DailyFacts := ⟨10000, 2000, 8, true, true, true, some "excellent"⟩

/-- The spec's §8 scenario row: steps 5000, water 1000 ml, sleep 6 h,
breakfast and lunch, no dinner, mood good. -/
def factsScenario : DailyFacts := ⟨5000, 1000, 6, true, true, false, some "good"⟩

/-- An otherwise empty day with no water logged. -/
def factsNoWater : DailyFacts := ⟨0, 0, 0, false, false, false, none⟩

/-- The same day as `factsNoWater` except 2000 ml of water. -/
def factsFullWater : DailyFacts := ⟨0, 2000, 0, false, false, false, none⟩

/-- A structurally invalid row: a negative step count. -/
def factsNegSteps : DailyFacts := ⟨-5, 0, 0, false, false, false, none⟩

/-- `factsNoWater` with the water field replaced. -/
def set_water (f : DailyFacts) (w : Int) : DailyFacts :=
  ⟨f.steps, w, f.sleep, f.breakfast, f.lunch, f.dinner, f.mood⟩

theorem steps_score_nonneg (f : DailyFacts) : 0 ≤ steps_score f := by
  rw [steps_score]
  split_ifs with h
  · have hc : (0 : Rat) < (f.steps : Rat) := by exact_mod_cast h
    exact le_min (by positivity) (by norm_num)
  · exact le_refl 0

theorem steps_score_le_25 (f : DailyFacts) : steps_score f ≤ 25 := by
  rw [steps_score]
  split_ifs
  · exact min_le_right _ _
  · norm_num

theorem water_score_nonneg (f : DailyFacts) : 0 ≤ water_score f := by
  rw [water_score]
  split_ifs with h
  · have hc : (0 : Rat) < (f.water : Rat) := by exact_mod_cast h
    exact le_min (by positivity) (by norm_num)
  · exact le_refl 0

theorem water_score_le_25 (f : DailyFacts) : water_score f ≤ 25 := by
  rw [water_score]
  split_ifs
  · exact min_le_right _ _
  · norm_num

theorem sleep_score_nonneg (f : DailyFacts) : 0 ≤ sleep_score f := by
  rw [sleep_score]
  split_ifs with h
  · exact le_min (by positivity) (by norm_num)
  · exact le_refl 0

theorem sleep_score_le_25 (f : DailyFacts) : sleep_score f ≤ 25 := by
  rw [sleep_score]
  split_ifs
  · exact min_le_right _ _
  · norm_num

theorem meals_count_le_three (f : DailyFacts) : meals_count f ≤ 3 := by
  rw [meals_count]
  split_ifs <;> omega

theorem meals_score_nonneg (f : DailyFacts) : 0 ≤ meals_score f := by
  rw [meals_score]
  split_ifs
  · positivity
  · exact le_refl 0

theorem meals_score_le_25 (f : DailyFacts) : meals_score f ≤ 25 := by
  rw [meals_score]
  split_ifs
  · have hc : ((meals_count f : Rat)) ≤ 3 := by
      exact_mod_cast meals_count_le_three f
    linarith
  · norm_num

theorem mood_score_cases (f : DailyFacts) :
    mood_score f = 25 ∨ mood_score f = 20 ∨ mood_score f = 15 ∨
      mood_score f = 5 ∨ mood_score f = 0 := by
  rw [mood_score, mood_scores]
  by_cases h1 : f.mood.getD "neutral" = "excellent"
  · simp [List.lookup, h1]
  by_cases h2 : f.mood.getD "neutral" = "good"
  · simp [List.lookup, h2]
  by_cases h3 : f.mood.getD "neutral" = "neutral"
  · simp [List.lookup, h1, h2, h3]
  by_cases h4 : f.mood.getD "neutral" = "bad"
  · simp [List.lookup, h1, h2, h3, h4]
  by_cases h5 : f.mood.getD "neutral" = "terrible"
  · simp [List.lookup, h1, h2, h3, h4, h5]
  · simp [List.lookup, beq_eq_false_iff_ne.mpr h1, beq_eq_false_iff_ne.mpr h2,
      beq_eq_false_iff_ne.mpr h3, beq_eq_false_iff_ne.mpr h4, beq_eq_false_iff_ne.mpr h5]

theorem mood_score_nonneg (f : DailyFacts) : 0 ≤ mood_score f := by
  rcases mood_score_cases f with h | h | h | h | h <;> rw [h] <;> norm_num

theorem mood_score_le_25 (f : DailyFacts) : mood_score f ≤ 25 := by
  rcases mood_score_cases f with h | h | h | h | h <;> rw [h] <;> norm_num

/-- C1 counterexample: at the all-ceilings day `factsMax` the code's
`overall_balance` is 125, while the sum of the four persisted sub-scores
(activity, nutrition, recovery, mental) is only 100, so the balance neither
equals that four-term sum nor lies within [0, 100]: the claim fails because
line 775 of `src/main.py` also adds the water score to the balance. -/
theorem c1_counterexample :
    overall_balance factsMax = 125 ∧
    steps_score factsMax + meals_score factsMax + sleep_score factsMax + mood_score factsMax
      = 100 ∧
    ¬ overall_balance factsMax ≤ 100 := by
  have hb : overall_balance factsMax = 125 := by
    simp [overall_balance, steps_score, water_score, sleep_score, meals_score, meals_count,
      mood_score, mood_scores, factsMax, List.lookup] <;> norm_num [min_def]
  have h4 : steps_score factsMax + meals_score factsMax + sleep_score factsMax +
      mood_score factsMax = 100 := by
    simp [steps_score, sleep_score, meals_score, meals_count, mood_score, mood_scores,
      factsMax, List.lookup] <;> norm_num [min_def]
  exact ⟨hb, h4, by rw [hb]; norm_num⟩

/-- C1 amended: for every `DailyFacts` input the aggregate balance equals
activity + nutrition + recovery + mental + water score (five summands, the
water score being `min(water/2000*25, 25)` and 0 for non-positive water), the
balance lies in [0, 125], and each of the five component scores lies in
[0, 25]. -/
theorem c1_amended (f : DailyFacts) :
    overall_balance f
      = steps_score f + meals_score f + sleep_score f + mood_score f + water_score f ∧
    0 ≤ overall_balance f ∧ overall_balance f ≤ 125 ∧
    (0 ≤ steps_score f ∧ steps_score f ≤ 25) ∧
    (0 ≤ meals_score f ∧ meals_score f ≤ 25) ∧
    (0 ≤ sleep_score f ∧ sleep_score f ≤ 25) ∧
    (0 ≤ mood_score f ∧ mood_score f ≤ 25) ∧
    (0 ≤ water_score f ∧ water_score f ≤ 25) := by
  have h1 := steps_score_nonneg f
  have h2 := steps_score_le_25 f
  have h3 := meals_score_nonneg f
  have h4 := meals_score_le_25 f
  have h5 := sleep_score_nonneg f
  have h6 := sleep_score_le_25 f
  have h7 := mood_score_nonneg f
  have h8 := mood_score_le_25 f
  have h9 := water_score_nonneg f
  have h10 := water_score_le_25 f
  refine ⟨by rw [overall_balance]; ring, ?_, ?_, ⟨h1, h2⟩, ⟨h3, h4⟩, ⟨h5, h6⟩, ⟨h7, h8⟩,
    ⟨h9, h10⟩⟩
  · rw [overall_balance]; linarith
  · rw [overall_balance]; linarith

/-- C2 counterexample: on the spec's scenario row the code's balance is
965/12 = 80.41666..., which rounds to 80.417 at three decimals — not the
claimed 67.917 (the claimed value omits the 12.5-point water score that
line 775 adds for 1000 ml of water). -/
theorem c2_counterexample :
    overall_balance factsScenario = 965 / 12 ∧
    round3 (overall_balance factsScenario) = 80417 ∧
    overall_balance factsScenario ≠ 67917 / 1000 ∧
    round3 (overall_balance factsScenario) ≠ 67917 := by
  have hb : overall_balance factsScenario = 965 / 12 := by
    simp [overall_balance, steps_score, water_score, sleep_score, meals_score, meals_count,
      mood_score, mood_scores, factsScenario, List.lookup]
    norm_num [min_def]
  have hr : round3 ((965 : Rat) / 12) = 80417 := by
    rw [round3]
    rw [show (965 : Rat) / 12 * 1000 = 241250 / 3 by norm_num]
    rw [round_eq]
    rw [show (241250 : Rat) / 3 + 1 / 2 = 482503 / 6 by norm_num]
    rw [Int.floor_eq_iff]
    norm_num
  refine ⟨hb, by rw [hb]; exact hr, by rw [hb]; norm_num, by rw [hb, hr]; norm_num⟩

/-- C2 amended: the scenario row DailyFacts(steps 5000, water 1000 ml,
sleep 6 h, breakfast true, lunch true, dinner false, mood good) yields
activity = 12.5, nutrition = 50/3 (16.667 rounded), recovery = 18.75,
mental = 20, a water score of 12.5, and balance = 965/12 (80.417 rounded). -/
theorem c2_amended :
    steps_score factsScenario = 25 / 2 ∧
    meals_score factsScenario = 50 / 3 ∧
    sleep_score factsScenario = 75 / 4 ∧
    mood_score factsScenario = 20 ∧
    water_score factsScenario = 25 / 2 ∧
    overall_balance factsScenario = 965 / 12 := by
  refine ⟨?_, ?_, ?_, ?_, ?_, ?_⟩ <;>
    simp [overall_balance, steps_score, water_score, sleep_score, meals_score, meals_count,
      mood_score, mood_scores, factsScenario, List.lookup] <;>
    norm_num [min_def]

/-- C3 counterexample: `factsNoWater` and `factsFullWater` agree on every
field except the water volume (0 ml vs 2000 ml), yet the code computes
balances 15 and 40 for them — water volume does change the aggregate
balance, so it is scored, not merely stored. -/
theorem c3_counterexample :
    factsNoWater.steps = factsFullWater.steps ∧
    factsNoWater.sleep = factsFullWater.sleep ∧
    factsNoWater.breakfast = factsFullWater.breakfast ∧
    factsNoWater.lunch = factsFullWater.lunch ∧
    factsNoWater.dinner = factsFullWater.dinner ∧
    factsNoWater.mood = factsFullWater.mood ∧
    overall_balance factsNoWater = 15 ∧
    overall_balance factsFullWater = 40 ∧
    overall_balance factsNoWater ≠ overall_balance factsFullWater := by
  have h1 : overall_balance factsNoWater = 15 := by
    simp [overall_balance, steps_score, water_score, sleep_score, meals_score, meals_count,
      mood_score, mood_scores, factsNoWater, List.lookup] <;> norm_num [min_def]
  have h2 : overall_balance factsFullWater = 40 := by
    simp [overall_balance, steps_score, water_score, sleep_score, meals_score, meals_count,
      mood_score, mood_scores, factsFullWater, List.lookup] <;> norm_num [min_def]
  exact ⟨rfl, rfl, rfl, rfl, rfl, rfl, h1, h2, by rw [h1, h2]; norm_num⟩

/-- C3 amended: changing only the water volume of a `DailyFacts` row leaves
the four persisted sub-scores (activity, nutrition, recovery, mental)
unchanged, and shifts the aggregate balance by exactly the change in the
water score — so water influences the balance but none of the four
sub-scores. -/
theorem c3_amended (f : DailyFacts) (w : Int) :
    steps_score (set_water f w) = steps_score f ∧
    meals_score (set_water f w) = meals_score f ∧
    sleep_score (set_water f w) = sleep_score f ∧
    mood_score (set_water f w) = mood_score f ∧
    overall_balance (set_water f w) - overall_balance f
      = water_score (set_water f w) - water_score f := by
  refine ⟨rfl, rfl, rfl, rfl, ?_⟩
  have hs : steps_score (set_water f w) = steps_score f := rfl
  have hm : meals_score (set_water f w) = meals_score f := rfl
  have hsl : sleep_score (set_water f w) = sleep_score f := rfl
  have hmo : mood_score (set_water f w) = mood_score f := rfl
  simp only [overall_balance]
  rw [hs, hm, hsl, hmo]
  ring

theorem new_energy_eq (hist : List ScoreRecord) (anchor : Int) :
    new_energy hist anchor =
      if windowBalances hist anchor = [] then 50
      else if (windowBalances hist anchor).sum / ((windowBalances hist anchor).length : Rat) = 0
        then 50
        else (windowBalances hist anchor).sum / ((windowBalances hist anchor).length : Rat) := by
  by_cases h : windowBalances hist anchor = []
  · rw [new_energy, avg_energy, if_pos h, if_pos h]
  · rw [new_energy, avg_energy, if_neg h, if_neg h]

theorem mean_nonneg_and_le (l : List Rat) (hne : l ≠ []) (h0 : ∀ x ∈ l, 0 ≤ x)
    (h1 : ∀ x ∈ l, x ≤ 125) :
    0 ≤ l.sum / (l.length : Rat) ∧ l.sum / (l.length : Rat) ≤ 125 := by
  have hlen : 0 < l.length := List.length_pos.mpr hne
  have hlen2 : (0 : Rat) < (l.length : Rat) := by exact_mod_cast hlen
  constructor
  · exact div_nonneg (List.sum_nonneg h0) (le_of_lt hlen2)
  · rw [div_le_iff hlen2]
    calc l.sum ≤ l.length • (125 : Rat) := List.sum_le_card_nsmul l 125 h1
    _ = (l.length : Rat) * 125 := by rw [nsmul_eq_mul]
    _ = 125 * (l.length : Rat) := by ring

/-- C4 counterexample: a record dated `anchor - 7` lies outside the 7-day
window `anchor - 6 .. anchor`, and a record dated `anchor + 1` lies after
the anchor; the claim predicts the empty-window default 50.0 in both cases,
but the SQL filter `date >= anchor - 7 days` (with no upper bound) includes
both rows, so the code returns their balances 80 and 90.  Moreover a single
record carrying the attainable balance 125 (see `c1_counterexample`) makes
the result 125, outside the claimed range [0, 100]. -/
theorem c4_counterexample :
    new_energy [ScoreRecord.mk (-7) 80] 0 = 80 ∧ (80 : Rat) ≠ 50 ∧
    new_energy [ScoreRecord.mk 1 90] 0 = 90 ∧ (90 : Rat) ≠ 50 ∧
    new_energy [ScoreRecord.mk 0 125] 0 = 125 ∧ ¬ new_energy [ScoreRecord.mk 0 125] 0 ≤ 100 := by
  norm_num [new_energy, avg_energy, windowBalances, List.filter]

/-- C4 amended: the energy update averages the balances of exactly the
records with date at least `anchor - 7` (an eight-day lower bound with no
upper bound, so records after the anchor count too); it returns 50.0 when
that window is empty (and also when the mean is exactly 0, see C10), and
when every stored balance lies in [0, 125] — the actual attainable range of
`overall_balance` — the result lies in [0, 125]. -/
theorem c4_amended (hist : List ScoreRecord) (anchor : Int)
    (hb : ∀ r ∈ hist, 0 ≤ r.balance ∧ r.balance ≤ 125) :
    (windowBalances hist anchor = [] → new_energy hist anchor = 50) ∧
    (windowBalances hist anchor ≠ [] →
      (windowBalances hist anchor).sum / ((windowBalances hist anchor).length : Rat) ≠ 0 →
      new_energy hist anchor
        = (windowBalances hist anchor).sum / ((windowBalances hist anchor).length : Rat)) ∧
    0 ≤ new_energy hist anchor ∧ new_energy hist anchor ≤ 125 := by
  have hmem : ∀ b ∈ windowBalances hist anchor, 0 ≤ b ∧ b ≤ 125 := by
    intro b hbm
    rw [windowBalances] at hbm
    simp only [List.mem_map, List.mem_filter] at hbm
    obtain ⟨r, ⟨hr, _⟩, hrb⟩ := hbm
    rw [← hrb]
    exact hb r hr
  refine ⟨?_, ?_, ?_, ?_⟩
  · intro h
    rw [new_energy_eq, if_pos h]
  · intro h hz
    rw [new_energy_eq, if_neg h, if_neg hz]
  · rw [new_energy_eq]
    split_ifs with h1 h2
    · norm_num
    · norm_num
    · exact (mean_nonneg_and_le _ h1 (fun x hx => (hmem x hx).1) (fun x hx => (hmem x hx).2)).1
  · rw [new_energy_eq]
    split_ifs with h1 h2
    · norm_num
    · norm_num
    · exact (mean_nonneg_and_le _ h1 (fun x hx => (hmem x hx).1) (fun x hx => (hmem x hx).2)).2

/-- C4 witness: a single record at the anchor with balance 80 is averaged
to 80, which the amended bounds confirm to lie in [0, 125]. -/
theorem c4_amended_witness :
    new_energy [ScoreRecord.mk 0 80] 0 = 80 ∧
    0 ≤ new_energy [ScoreRecord.mk 0 80] 0 ∧ new_energy [ScoreRecord.mk 0 80] 0 ≤ 125 := by
  have hw : windowBalances [ScoreRecord.mk 0 80] 0 = [80] := by
    norm_num [windowBalances, List.filter]
  have h := c4_amended [ScoreRecord.mk 0 80] 0 (by
    intro r hr
    simp only [List.mem_singleton] at hr
    rw [hr]
    norm_num)
  refine ⟨?_, h.2.2.1, h.2.2.2⟩
  have h2 := h.2.1 (by rw [hw]; simp) (by rw [hw]; norm_num)
  rw [h2, hw]
  norm_num

/-- C10: when the window is non-empty but every balance in it is 0, the
average exists and equals 0; the Python truthiness test
`if result and result['avg_energy']` treats that 0 like NULL, so the code
writes the fallback 50.0, exactly as the claim says. -/
theorem c10_zero_avg (hist : List ScoreRecord) (anchor : Int)
    (hne : windowBalances hist anchor ≠ [])
    (hz : ∀ b ∈ windowBalances hist anchor, b = 0) :
    new_energy hist anchor = 50 := by
  have hsum : (windowBalances hist anchor).sum = 0 := List.sum_eq_zero hz
  rw [new_energy_eq, if_neg hne, if_pos (by rw [hsum]; simp)]

/-- C10 witness: one record at the anchor with balance 0 produces a zero
average and the fallback energy 50. -/
theorem c10_zero_avg_witness : new_energy [ScoreRecord.mk 0 0] 0 = 50 := by
  apply c10_zero_avg
  · norm_num [windowBalances, List.filter]
  · intro b hb
    norm_num [windowBalances, List.filter] at hb
    exact hb

theorem streakGo_le_length (anchor : Int) (l : List Int) (i : Nat) :
    streakGo anchor l i ≤ l.length := by
  induction l generalizing i with
  | nil => simp [streakGo]
  | cons d rest ih =>
    simp only [streakGo, List.length_cons]
    split_ifs
    · have := ih (i + 1)
      omega
    · omega

theorem streakGo_matches (anchor : Int) (l : List Int) (i : Nat) :
    ∀ j, j < streakGo anchor l i → l.get? j = some (anchor - ((i : Int) + (j : Int))) := by
  induction l generalizing i with
  | nil =>
    intro j hj
    simp [streakGo] at hj
  | cons d rest ih =>
    intro j hj
    simp only [streakGo] at hj
    by_cases hd : d = anchor - (i : Int)
    · rw [if_pos hd] at hj
      cases j with
      | zero =>
        rw [List.get?]
        rw [hd]
        norm_num
      | succ k =>
        have hk : k < streakGo anchor rest (i + 1) := by omega
        have hrec := ih (i + 1) k hk
        rw [List.get?]
        rw [hrec]
        congr 1
        push_cast
        ring
    · rw [if_neg hd] at hj
      omega

theorem streakGo_stop (anchor : Int) (l : List Int) (i : Nat)
    (h : streakGo anchor l i < l.length) :
    l.get? (streakGo anchor l i)
      ≠ some (anchor - ((i : Int) + (streakGo anchor l i : Int))) := by
  induction l generalizing i with
  | nil => simp at h
  | cons d rest ih =>
    by_cases hd : d = anchor - (i : Int)
    · have hstep : streakGo anchor (d :: rest) i = streakGo anchor rest (i + 1) + 1 := by
        simp only [streakGo]
        rw [if_pos hd]
      rw [hstep] at h ⊢
      rw [List.length_cons] at h
      have h2 : streakGo anchor rest (i + 1) < rest.length := by omega
      have hrec := ih (i + 1) h2
      rw [List.get?]
      intro hc
      apply hrec
      rw [hc]
      congr 1
      push_cast
      ring
    · have hstep : streakGo anchor (d :: rest) i = 0 := by
        simp only [streakGo]
        rw [if_neg hd]
      rw [hstep]
      rw [List.get?]
      intro hc
      apply hd
      have : d = anchor - ((i : Int) + ((0 : Nat) : Int)) := Option.some.inj hc
      rw [this]
      norm_num

/-- C5: the current streak equals the count produced by walking the seven
most recent completion dates newest-first with expected date `anchor - j` at
position `j`: it never exceeds 7, is 0 on an empty history, is 1 for a lone
completion on the anchor date, matches the expected date at every position
below the count, and — when the walk stopped before exhausting the (at most
seven) inspected dates — the date at the stopping position differs from the
expected one. -/
theorem c5_streak_walk (completions : List Int) (anchor : Int) (s : StreakState) :
    (update_habit_streak completions anchor s).current_streak
        = current_streak completions anchor ∧
    current_streak completions anchor ≤ 7 ∧
    current_streak ([] : List Int) anchor = 0 ∧
    current_streak [anchor] anchor = 1 ∧
    (∀ j, j < current_streak completions anchor →
      (completions.take 7).get? j = some (anchor - (j : Int))) ∧
    (current_streak completions anchor < (completions.take 7).length →
      (completions.take 7).get? (current_streak completions anchor)
        ≠ some (anchor - (current_streak completions anchor : Int))) := by
  refine ⟨rfl, ?_, rfl, ?_, ?_, ?_⟩
  · have h1 := streakGo_le_length anchor (completions.take 7) 0
    have h2 : (completions.take 7).length ≤ 7 := by
      rw [List.length_take]
      omega
    rw [current_streak]
    omega
  · simp [current_streak, streakGo]
  · intro j hj
    rw [current_streak] at hj
    have := streakGo_matches anchor (completions.take 7) 0 j hj
    rw [this]
    norm_num
  · intro hlt
    rw [current_streak] at hlt ⊢
    have := streakGo_stop anchor (completions.take 7) 0 hlt
    intro hc
    apply this
    rw [hc]
    norm_num

/-- C5 witness: with completions on days 10, 9 and 7 and anchor day 10 the
walk counts 2 matches; the theorem's bound, empty and singleton clauses are
instantiated at that input. -/
theorem c5_streak_walk_witness :
    current_streak [10, 9, 7] 10 ≤ 7 ∧
    current_streak ([] : List Int) 10 = 0 ∧
    current_streak [10] 10 = 1 :=
  ⟨(c5_streak_walk [10, 9, 7] 10 ⟨0, 0⟩).2.1,
   (c5_streak_walk [10, 9, 7] 10 ⟨0, 0⟩).2.2.1,
   (c5_streak_walk [10] 10 ⟨0, 0⟩).2.2.2.1⟩

/-- C6: the persisted longest streak becomes `max(stored longest, current)`,
so it never decreases and always dominates the freshly written current
streak, while the current streak is overwritten outright; in particular a
stored longest of 5 with a newly computed current of 2 keeps longest 5 and
current drops to 2. -/
theorem c6_longest_monotone (completions : List Int) (anchor : Int) (s : StreakState) :
    (update_habit_streak completions anchor s).longest_streak
        = max s.longest_streak (current_streak completions anchor) ∧
    s.longest_streak ≤ (update_habit_streak completions anchor s).longest_streak ∧
    (update_habit_streak completions anchor s).current_streak
        ≤ (update_habit_streak completions anchor s).longest_streak ∧
    (update_habit_streak completions anchor s).current_streak
        = current_streak completions anchor ∧
    (update_habit_streak [10, 9, 7] 10 (StreakState.mk 5 5)).longest_streak = 5 ∧
    (update_habit_streak [10, 9, 7] 10 (StreakState.mk 5 5)).current_streak = 2 := by
  refine ⟨rfl, le_max_left _ _, le_max_right _ _, rfl, ?_, ?_⟩
  · simp [update_habit_streak, current_streak, streakGo]
  · simp [update_habit_streak, current_streak, streakGo]

/-- C7: the sub-score formulas — activity is `min(steps/10000*25, 25)`
(0 at 0 steps), recovery is `min(sleep/8*25, 25)` (0 at 0 sleep), nutrition
is `mealsCount/3*25` (0 with no meal flags), and mental is the mood lookup
25/20/15/5/0 for excellent/good/neutral/bad/terrible with the neutral 15 for
an absent or unrecognized mood. -/
theorem c7_subscores (f : DailyFacts) (hst : 0 ≤ f.steps) (hsl : 0 ≤ f.sleep) :
    steps_score f = min ((f.steps : Rat) / 10000 * 25) 25 ∧
    (f.steps = 0 → steps_score f = 0) ∧
    sleep_score f = min (f.sleep / 8 * 25) 25 ∧
    (f.sleep = 0 → sleep_score f = 0) ∧
    meals_score f = (meals_count f : Rat) / 3 * 25 ∧
    (meals_count f = 0 → meals_score f = 0) ∧
    (f.mood = some "excellent" → mood_score f = 25) ∧
    (f.mood = some "good" → mood_score f = 20) ∧
    (f.mood = some "neutral" → mood_score f = 15) ∧
    (f.mood = some "bad" → mood_score f = 5) ∧
    (f.mood = some "terrible" → mood_score f = 0) ∧
    (f.mood = none → mood_score f = 15) ∧
    (∀ m, f.mood = some m → m ≠ "excellent" → m ≠ "good" → m ≠ "neutral" → m ≠ "bad" →
      m ≠ "terrible" → mood_score f = 15) := by
  refine ⟨?_, ?_, ?_, ?_, ?_, ?_, ?_, ?_, ?_, ?_, ?_, ?_, ?_⟩
  · rw [steps_score]
    rcases lt_or_eq_of_le hst with h | h
    · rw [if_pos h]
    · rw [if_neg (by omega), ← h]
      norm_num
  · intro h
    rw [steps_score, if_neg (by omega)]
  · rw [sleep_score]
    rcases lt_or_eq_of_le hsl with h | h
    · rw [if_pos h]
    · rw [if_neg (by rw [← h]; exact lt_irrefl 0), ← h]
      norm_num
  · intro h
    rw [sleep_score, if_neg (by rw [h]; exact lt_irrefl 0)]
  · rw [meals_score]
    by_cases h : 0 < meals_count f
    · rw [if_pos h]
    · rw [if_neg h]
      have h0 : meals_count f = 0 := by omega
      rw [h0]
      norm_num
  · intro h
    rw [meals_score, if_neg (by omega)]
  · intro hm
    rw [mood_score, hm]
    simp [mood_scores, List.lookup]
  · intro hm
    rw [mood_score, hm]
    simp [mood_scores, List.lookup]
  · intro hm
    rw [mood_score, hm]
    simp [mood_scores, List.lookup]
  · intro hm
    rw [mood_score, hm]
    simp [mood_scores, List.lookup]
  · intro hm
    rw [mood_score, hm]
    simp [mood_scores, List.lookup]
  · intro hm
    rw [mood_score, hm]
    simp [mood_scores, List.lookup]
  · intro m hm h1 h2 h3 h4 h5
    rw [mood_score, hm]
    simp [mood_scores, List.lookup, beq_eq_false_iff_ne.mpr h1, beq_eq_false_iff_ne.mpr h2,
      beq_eq_false_iff_ne.mpr h3, beq_eq_false_iff_ne.mpr h4, beq_eq_false_iff_ne.mpr h5]

/-- C7 witness: the formulas instantiated at the scenario row (5000 steps,
6 hours of sleep), whose step and sleep values are non-negative. -/
theorem c7_subscores_witness :
    steps_score factsScenario = min ((factsScenario.steps : Rat) / 10000 * 25) 25 ∧
    sleep_score factsScenario = min (factsScenario.sleep / 8 * 25) 25 :=
  ⟨(c7_subscores factsScenario (by norm_num [factsScenario]) (by norm_num [factsScenario])).1,
   (c7_subscores factsScenario (by norm_num [factsScenario])
      (by norm_num [factsScenario])).2.2.1⟩

/-- C8: the completion reward adds exactly 2 coins with no cap, clamps the
energy bonus at 100 (99 becomes 100, never 102), stays at or below 100,
always produces a result, and is not idempotent: a second application adds
2 more coins, so the doubled state differs from the single one. -/
theorem c8_reward (a : UserAccount) :
    (award_for_habit_completion a).sync_coins = a.sync_coins + 2 ∧
    (award_for_habit_completion a).energy_level = min (a.energy_level + 3) 100 ∧
    (a.energy_level = 99 → (award_for_habit_completion a).energy_level = 100) ∧
    (award_for_habit_completion (award_for_habit_completion a)).sync_coins
        = a.sync_coins + 4 ∧
    (award_for_habit_completion a).energy_level ≤ 100 ∧
    award_for_habit_completion (award_for_habit_completion a) ≠ award_for_habit_completion a := by
  refine ⟨rfl, rfl, ?_, ?_, min_le_right _ _, ?_⟩
  · intro h
    have : (award_for_habit_completion a).energy_level = min (a.energy_level + 3) 100 := rfl
    rw [this, h]
    norm_num [min_def]
  · have : (award_for_habit_completion (award_for_habit_completion a)).sync_coins
        = a.sync_coins + 2 + 2 := rfl
    rw [this]
    ring
  · intro h
    have hc := congrArg UserAccount.sync_coins h
    have h1 : (award_for_habit_completion (award_for_habit_completion a)).sync_coins
        = a.sync_coins + 2 + 2 := rfl
    have h2 : (award_for_habit_completion a).sync_coins = a.sync_coins + 2 := rfl
    rw [h1, h2] at hc
    omega

/-- C8 witness: an account at energy 99 is clamped to exactly 100 by the
reward. -/
theorem c8_reward_witness :
    (award_for_habit_completion (UserAccount.mk 0 99)).energy_level = 100 :=
  (c8_reward (UserAccount.mk 0 99)).2.2.1 rfl

/-- C9 counterexample: the daily write path scores the row with steps = -5
instead of rejecting it — the outcome is `Except.ok`, never a
validation-error signal, and the negative step count is silently defaulted
to a zero activity contribution (the guard `if steps > 0` fails), exactly
the behaviour the claim rules out. -/
theorem c9_counterexample :
    (process_daily factsNegSteps).isOk = true ∧
    process_daily factsNegSteps = Except.ok (DailyScore.mk 0 0 0 15 15) ∧
    steps_score factsNegSteps = 0 := by
  have hs : steps_score factsNegSteps = 0 := by
    simp [steps_score, factsNegSteps]
  have hw : water_score factsNegSteps = 0 := by
    simp [water_score, factsNegSteps]
  have hsl : sleep_score factsNegSteps = 0 := by
    simp [sleep_score, factsNegSteps]
  have hm : meals_score factsNegSteps = 0 := by
    simp [meals_score, meals_count, factsNegSteps]
  have hmo : mood_score factsNegSteps = 15 := by
    simp [mood_score, mood_scores, factsNegSteps, List.lookup]
  have hb : overall_balance factsNegSteps = 15 := by
    rw [overall_balance, hs, hw, hsl, hm, hmo]
    norm_num
  refine ⟨rfl, ?_, hs⟩
  rw [process_daily, computeDailyScore, hs, hsl, hm, hmo, hb]

/-- C9 amended: a `DailyFacts` row with a negative step count is accepted by
the daily write path (the result is always a success) and its step count is
silently treated as a zero activity contribution rather than rejected. -/
theorem c9_amended (f : DailyFacts) (h : f.steps < 0) :
    (process_daily f).isOk = true ∧ steps_score f = 0 := by
  refine ⟨rfl, ?_⟩
  rw [steps_score, if_neg (by omega)]

/-- C9 witness: the amended claim instantiated at the row with steps = -5. -/
theorem c9_amended_witness :
    (process_daily factsNegSteps).isOk = true ∧ steps_score factsNegSteps = 0 :=
  c9_amended factsNegSteps (by decide)

end HealthSync
